import Mathlib

/-
Verification development for the Sefro email verification-code lifecycle.

Shallow embedding of the relevant Python source:
  * src/api/models.py   — User.set_verification_code, User.clear_verification_code,
                          User.is_verification_code_valid, User.generate_verification_code
  * src/api/utils.py    — generate_verification_code
  * src/api/views.py    — verify_email, resend_verification
  * src/api/verification_email.py — verify_code

The user record is modelled by the three fields the lifecycle touches;
timestamps are integers counting seconds; the random source is an explicit
function `rnd : Nat → Fin 10` supplying the digit drawn at each position.
-/

namespace Sefro

/-- Outcome kinds of the consume operation (`verify_email` view): the response
`code` field is `success`, `invalid_code`, or `already_verified`. -/
inductive ConsumeResult where
  | Verified
  | InvalidOrExpired
  | AlreadyVerified
  deriving DecidableEq, Repr

/-- The slice of the Django `User` model the verification lifecycle reads and
writes: `is_email_verified` (BooleanField, default False), `verification_code`
(CharField, null=True) and `verification_code_created` (DateTimeField,
null=True). -/
structure UserState where
  is_email_verified : Bool
  verification_code : Option String
  verification_code_created : Option Int
  deriving DecidableEq, Repr

/-- A freshly created account: `is_email_verified` defaults to False and both
verification fields default to null (models.py lines 39-41). -/
def newUser : UserState :=
  { is_email_verified := false
    verification_code := none
    verification_code_created := none }

/-- `string.digits` from the Python standard library: the ten decimal digit
characters, in order. -/
def digitChars : List Char := ['0', '1', '2', '3', '4', '5', '6', '7', '8', '9']

/-- utils.py `generate_verification_code(length)`:
`''.join(random.choices(string.digits, k=length))` — the character at
position `i` is `string.digits[rnd i]`. -/
def generate_verification_code (rnd : Nat → Fin 10) (length : Nat) : String :=
  String.mk ((List.range length).map fun i => digitChars.get (Fin.cast (by decide) (rnd i)))

/-- models.py `User.set_verification_code(code)`: stores the code and stamps
`verification_code_created = timezone.now()`, then saves. -/
def set_verification_code (u : UserState) (code : String) (now : Int) : UserState :=
  { u with verification_code := some code, verification_code_created := some now }

/-- models.py `User.clear_verification_code()`: sets both fields to null and
saves. -/
def clear_verification_code (u : UserState) : UserState :=
  { u with verification_code := none, verification_code_created := none }

/-- models.py `User.is_verification_code_valid(code)`:
`if not self.verification_code or not self.verification_code_created: return False`
— note that in Python `not self.verification_code` is also true for the EMPTY
string, so a stored empty code fails the presence guard; then
`is_expired = (now - created).total_seconds() > timeout` and the result is
`not is_expired and self.verification_code == code`. -/
def is_verification_code_valid (u : UserState) (timeout : Int) (now : Int) (code : String) : Bool :=
  match u.verification_code, u.verification_code_created with
  | some stored, some created =>
      if stored = "" then false
      else
        let is_expired : Bool := decide (now - created > timeout)
        !is_expired && (stored == code)
  | _, _ => false

/-- models.py `User.generate_verification_code()`: builds
`''.join([str(random.randint(0, 9)) for _ in range(6)])` — six uniform digit
characters — stores it with `verification_code_created = timezone.now()`,
saves, and returns the code. -/
def User.generate_verification_code (u : UserState) (rnd : Nat → Fin 10) (now : Int) :
    String × UserState :=
  let code := String.mk ((List.range 6).map fun i => digitChars.get (Fin.cast (by decide) (rnd i)))
  (code,
    { u with verification_code := some code, verification_code_created := some now })

/-- views.py `verify_email` (the per-user part, after the user is looked up):
if `user.is_email_verified` return `already_verified` with no side effect;
else if the code is not valid return `invalid_code` with no side effect;
else set `is_email_verified = True`, call `clear_verification_code()`, save,
and return `success`. -/
def verify_email (u : UserState) (timeout : Int) (now : Int) (code : String) :
    ConsumeResult × UserState :=
  if u.is_email_verified then
    (ConsumeResult.AlreadyVerified, u)
  else if !(is_verification_code_valid u timeout now code) then
    (ConsumeResult.InvalidOrExpired, u)
  else
    (ConsumeResult.Verified, clear_verification_code { u with is_email_verified := true })

/-- HTTP status attached to each `verify_email` outcome in views.py:
`already_verified` → HTTP_200_OK, `invalid_code` → HTTP_400_BAD_REQUEST,
`success` → the default 200 response. -/
def verify_email_status : ConsumeResult → Nat
  | ConsumeResult.Verified => 200
  | ConsumeResult.AlreadyVerified => 200
  | ConsumeResult.InvalidOrExpired => 400

/-- verification_email.py `verify_code` (the per-user part): if `user.is_verified`
return success ("Email already verified"); else if `user.verify_code(code)`
(which delegates to `is_verification_code_valid`) set `is_verified = True`,
null both fields, save, success; else failure with state untouched. The Bool
is the JSON `success` field. -/
def verify_code (u : UserState) (timeout : Int) (now : Int) (code : String) :
    Bool × UserState :=
  if u.is_email_verified then
    (true, u)
  else if is_verification_code_valid u timeout now code then
    (true,
      { u with is_email_verified := true
               verification_code := none
               verification_code_created := none })
  else
    (false, u)

/-- views.py `resend_verification` (the per-user part): if already verified,
return `already_verified` with no side effect; else generate a fresh code via
utils.generate_verification_code and store it with `set_verification_code`. -/
def resend_verification (u : UserState) (rnd : Nat → Fin 10) (codeLength : Nat) (now : Int) :
    UserState :=
  if u.is_email_verified then u
  else set_verification_code u (generate_verification_code rnd codeLength) now

/-- One lifecycle operation, as observed at the endpoints: issuing a code
(models.py generate_verification_code, used at registration and by
resend_verification), a pure validity check, and the two consume endpoints. -/
inductive LifecycleOp where
  | issue (rnd : Nat → Fin 10) (now : Int)
  | resend (rnd : Nat → Fin 10) (codeLength : Nat) (now : Int)
  | checkValid (timeout : Int) (now : Int) (code : String)
  | consume (timeout : Int) (now : Int) (code : String)
  | consumeAlt (timeout : Int) (now : Int) (code : String)

/-- Apply one lifecycle operation to a user record. `checkValid` is read-only:
`is_verification_code_valid` performs no write. -/
def applyOp (u : UserState) : LifecycleOp → UserState
  | LifecycleOp.issue rnd now => (User.generate_verification_code u rnd now).2
  | LifecycleOp.resend rnd codeLength now => resend_verification u rnd codeLength now
  | LifecycleOp.checkValid _ _ _ => u
  | LifecycleOp.consume timeout now code => (verify_email u timeout now code).2
  | LifecycleOp.consumeAlt timeout now code => (verify_code u timeout now code).2

/-- Run a sequence of lifecycle operations from a starting state. -/
def applyOps (u : UserState) (ops : List LifecycleOp) : UserState :=
  ops.foldl applyOp u

/-- The data-model invariant: `verification_code` is set iff
`verification_code_created` is set. -/
def codeInvariant (u : UserState) : Bool :=
  u.verification_code.isSome == u.verification_code_created.isSome

/-- A freshly generated 6-digit code is never the empty string. -/
theorem gen6_ne_empty (u : UserState) (rnd : Nat → Fin 10) (now : Int) :
    (User.generate_verification_code u rnd now).1 ≠ "" := by
  simp [User.generate_verification_code, String.ext_iff, List.range_succ]

/-- A freshly generated code validates against itself at issuance time for any
nonnegative timeout. -/
theorem gen_isValid_now (u : UserState) (rnd : Nat → Fin 10) (t0 timeout : Int)
    (ht : 0 ≤ timeout) :
    is_verification_code_valid (User.generate_verification_code u rnd t0).2 timeout t0
      (User.generate_verification_code u rnd t0).1 = true := by
  have hne := gen6_ne_empty u rnd t0
  simp only [is_verification_code_valid, User.generate_verification_code] at *
  rw [if_neg hne]
  simp
  omega

/-- A candidate that mismatches the stored code, or a stored code past its
timeout, never validates. -/
theorem invalid_of_mismatch_or_expired (u : UserState) (timeout now : Int)
    (candidate : String)
    (h : u.verification_code ≠ some candidate ∨
         ∃ created, u.verification_code_created = some created ∧ now - created > timeout) :
    is_verification_code_valid u timeout now candidate = false := by
  rcases hcode : u.verification_code with _ | stored
  · simp [is_verification_code_valid, hcode]
  · rcases hcreated : u.verification_code_created with _ | created
    · simp [is_verification_code_valid, hcode, hcreated]
    · simp only [is_verification_code_valid, hcode, hcreated]
      by_cases hs : stored = ""
      · simp [hs]
      · rw [if_neg hs]
        rcases h with h | ⟨c2, hc2, hgt⟩
        · have hne : (stored == candidate) = false := by
            rw [hcode] at h
            simpa using h
          simp [hne]
        · rw [hcreated] at hc2
          have : created = c2 := by injection hc2
          subst this
          simp [hgt]

/-- C1: For every user holding a freshly issued code c at time t0, with timeout
timeoutSeconds, isValid(u, c) returns true when evaluated at exactly
t0 + timeoutSeconds and false at t0 + timeoutSeconds + 1: expiry is decided by
the strict comparison elapsed > timeoutSeconds, so the exact boundary instant
is still valid. -/
theorem C1_boundary_validity (u : UserState) (rnd : Nat → Fin 10) (t0 timeout : Int) :
    is_verification_code_valid (User.generate_verification_code u rnd t0).2 timeout
        (t0 + timeout) (User.generate_verification_code u rnd t0).1 = true ∧
    is_verification_code_valid (User.generate_verification_code u rnd t0).2 timeout
        (t0 + timeout + 1) (User.generate_verification_code u rnd t0).1 = false := by
  have hne := gen6_ne_empty u rnd t0
  constructor
  · simp only [is_verification_code_valid, User.generate_verification_code] at *
    rw [if_neg hne]
    simp
  · simp only [is_verification_code_valid, User.generate_verification_code] at *
    rw [if_neg hne]
    simp
    omega

/-- C2: For every unverified user, calling consume(u, c) immediately after
issue(u) returned c yields Verified, sets verified to true, and clears both
code and issuedAt; a subsequent consume(u, c) on the same user then yields
AlreadyVerified. -/
theorem C2_consume_fresh_code (u : UserState) (rnd : Nat → Fin 10) (t0 timeout : Int)
    (hu : u.is_email_verified = false) (ht : 0 ≤ timeout) :
    (verify_email (User.generate_verification_code u rnd t0).2 timeout t0
        (User.generate_verification_code u rnd t0).1).1 = ConsumeResult.Verified ∧
    (verify_email (User.generate_verification_code u rnd t0).2 timeout t0
        (User.generate_verification_code u rnd t0).1).2.is_email_verified = true ∧
    (verify_email (User.generate_verification_code u rnd t0).2 timeout t0
        (User.generate_verification_code u rnd t0).1).2.verification_code = none ∧
    (verify_email (User.generate_verification_code u rnd t0).2 timeout t0
        (User.generate_verification_code u rnd t0).1).2.verification_code_created = none ∧
    (verify_email
        (verify_email (User.generate_verification_code u rnd t0).2 timeout t0
          (User.generate_verification_code u rnd t0).1).2 timeout t0
        (User.generate_verification_code u rnd t0).1).1 = ConsumeResult.AlreadyVerified := by
  have hv := gen_isValid_now u rnd t0 timeout ht
  have hstate : (User.generate_verification_code u rnd t0).2.is_email_verified = false := by
    simpa [User.generate_verification_code] using hu
  simp [verify_email, hv, hstate, clear_verification_code]

/-- Witness for C2 at a concrete input: a fresh user, the all-zeros digit
source, issuance time 0 and the default 3600-second timeout. -/
theorem C2_consume_fresh_code_witness :
    (verify_email (User.generate_verification_code newUser (fun _ => 0) 0).2 3600 0
        (User.generate_verification_code newUser (fun _ => 0) 0).1).1 =
      ConsumeResult.Verified :=
  (C2_consume_fresh_code newUser (fun _ => 0) 0 3600 rfl (by decide)).1

/-- C3: For every user with verified still false, whenever consume(u, candidate)
is called with a candidate that does not match the stored code or whose code
has expired, it returns InvalidOrExpired and leaves the state untouched:
verified stays false and the stored code and issuedAt are not cleared or
changed. -/
theorem C3_failure_leaves_state (u : UserState) (timeout now : Int) (candidate : String)
    (hu : u.is_email_verified = false)
    (h : u.verification_code ≠ some candidate ∨
         ∃ created, u.verification_code_created = some created ∧ now - created > timeout) :
    verify_email u timeout now candidate = (ConsumeResult.InvalidOrExpired, u) := by
  have hv := invalid_of_mismatch_or_expired u timeout now candidate h
  simp [verify_email, hu, hv]

/-- Witness for C3 at a concrete input: an unverified user storing "123456",
probed with the mismatching candidate "000000". -/
theorem C3_failure_leaves_state_witness :
    verify_email ⟨false, some "123456", some 0⟩ 3600 10 "000000" =
      (ConsumeResult.InvalidOrExpired, ⟨false, some "123456", some 0⟩) :=
  C3_failure_leaves_state ⟨false, some "123456", some 0⟩ 3600 10 "000000" rfl
    (Or.inl (by decide))

/-- C4: For every user whose verified flag is already true, consume(u, candidate)
returns AlreadyVerified for every candidate, performs no side effects (no field
of the user changes), and this outcome is a success report (HTTP 200 /
success:true), not an error. -/
theorem C4_already_verified_noop (u : UserState) (timeout now : Int) (candidate : String)
    (hu : u.is_email_verified = true) :
    verify_email u timeout now candidate = (ConsumeResult.AlreadyVerified, u) ∧
    verify_code u timeout now candidate = (true, u) ∧
    verify_email_status ConsumeResult.AlreadyVerified = 200 := by
  simp [verify_email, verify_code, verify_email_status, hu]

/-- Witness for C4 at a concrete input: a verified user with cleared fields and
an arbitrary candidate. -/
theorem C4_already_verified_noop_witness :
    verify_email ⟨true, none, none⟩ 3600 0 "123456" =
      (ConsumeResult.AlreadyVerified, ⟨true, none, none⟩) :=
  (C4_already_verified_noop ⟨true, none, none⟩ 3600 0 "123456" rfl).1

/-- C5: For every length ≥ 0, issue(u, length) produces a string of exactly
length characters, each a decimal digit 0–9; in particular length = 0 yields
the empty string and does not fail. -/
theorem C5_code_is_digit_string (rnd : Nat → Fin 10) (length : Nat) :
    (generate_verification_code rnd length).length = length ∧
    ((generate_verification_code rnd length).data.all digitChars.contains) = true ∧
    generate_verification_code rnd 0 = "" := by
  refine ⟨?_, ?_, ?_⟩
  · simp [generate_verification_code, String.length]
  · simp only [generate_verification_code, List.all_eq_true]
    intro c hc
    simp only [List.mem_map, List.mem_range] at hc
    obtain ⟨i, _, rfl⟩ := hc
    generalize rnd i = d
    fin_cases d <;> decide
  · rfl

/-- C6 counterexample: when the random source yields the same six digits on
both issuances (here all zeros), the code stored after the second issue equals
the first code, so isValid(u, firstCode) is still true after the second issue;
the claim, quantified over all values the generator may produce, is false. -/
theorem C6_same_digits_counterexample :
    is_verification_code_valid
      (User.generate_verification_code
        (User.generate_verification_code newUser (fun _ => 0) 0).2 (fun _ => 0) 0).2
      3600 0
      (User.generate_verification_code newUser (fun _ => 0) 0).1 = true := by decide

/-- C6 amended: for every pair of consecutive issue(u) calls, isValid(u,
firstCode) is false after the second issue completes, PROVIDED the second
issued code differs from the first (validation compares the candidate with the
currently stored code by exact string equality). -/
theorem C6_reissue_invalidates (u : UserState) (rnd1 rnd2 : Nat → Fin 10)
    (t0 t1 timeout now : Int)
    (hne : (User.generate_verification_code u rnd1 t0).1 ≠
      (User.generate_verification_code (User.generate_verification_code u rnd1 t0).2 rnd2 t1).1) :
    is_verification_code_valid
      (User.generate_verification_code (User.generate_verification_code u rnd1 t0).2 rnd2 t1).2
      timeout now (User.generate_verification_code u rnd1 t0).1 = false := by
  have hne2 := gen6_ne_empty (User.generate_verification_code u rnd1 t0).2 rnd2 t1
  simp only [is_verification_code_valid, User.generate_verification_code] at *
  rw [if_neg hne2]
  simp
  intro _
  exact fun h => hne (h ▸ rfl)

/-- Witness for the amended C6: first code "000000", second code "111111". -/
theorem C6_reissue_invalidates_witness :
    is_verification_code_valid
      (User.generate_verification_code
        (User.generate_verification_code newUser (fun _ => 0) 0).2 (fun _ => 1) 5).2
      3600 5
      (User.generate_verification_code newUser (fun _ => 0) 0).1 = false :=
  C6_reissue_invalidates newUser (fun _ => 0) (fun _ => 1) 0 5 3600 5 (by decide)

/-- C7 counterexample: a user issued the length-0 (empty) code at time 0,
checked at time 10 with timeout 3600 (unexpired, candidate equal to the stored
code): isValid returns false, not true as the claim states, because the guard
`if not self.verification_code` treats the empty string as absent. -/
theorem C7_empty_code_counterexample :
    is_verification_code_valid
      (set_verification_code newUser (generate_verification_code (fun _ => 0) 0) 0)
      3600 10 "" = false := by decide

/-- C7 amended: when the stored code is the empty string, isValid(u, candidate)
returns false for every candidate — including "" while unexpired — since the
presence guard fails on the empty string (Python falsiness) before the
expiry-and-match expression is ever evaluated. -/
theorem C7_empty_code_never_valid (u : UserState) (timeout now : Int) (candidate : String)
    (h : u.verification_code = some "") :
    is_verification_code_valid u timeout now candidate = false := by
  rcases hcreated : u.verification_code_created with _ | created <;>
    simp [is_verification_code_valid, h, hcreated]

/-- Witness for the amended C7: empty stored code, issuedAt 0, probed at time
10 with timeout 3600 and candidate "". -/
theorem C7_empty_code_never_valid_witness :
    is_verification_code_valid ⟨false, some "", some 0⟩ 3600 10 "" = false :=
  C7_empty_code_never_valid ⟨false, some "", some 0⟩ 3600 10 "" rfl

/-- C8: Every operation of the lifecycle (account creation, issue, isValid,
consume in all its outcomes) preserves the invariant that code is set iff
issuedAt is set: after any operation the two fields are either both present or
both absent. (isValid performs no write, so the state after it is `u` itself.) -/
theorem C8_code_iff_issuedAt (u : UserState) (rnd : Nat → Fin 10) (code : String)
    (codeLength : Nat) (t timeout now : Int) (candidate : String)
    (h : codeInvariant u = true) :
    codeInvariant newUser = true ∧
    codeInvariant (set_verification_code u code t) = true ∧
    codeInvariant (User.generate_verification_code u rnd t).2 = true ∧
    codeInvariant (clear_verification_code u) = true ∧
    codeInvariant (resend_verification u rnd codeLength t) = true ∧
    codeInvariant (verify_email u timeout now candidate).2 = true ∧
    codeInvariant (verify_code u timeout now candidate).2 = true := by
  refine ⟨rfl, rfl, rfl, rfl, ?_, ?_, ?_⟩
  · by_cases hv : u.is_email_verified
    · simpa [resend_verification, codeInvariant, hv] using h
    · simp [resend_verification, set_verification_code, codeInvariant, hv]
  · by_cases hv : u.is_email_verified <;>
      by_cases hc : is_verification_code_valid u timeout now candidate <;>
      simp [verify_email, clear_verification_code, codeInvariant, hv, hc] <;>
      simpa [codeInvariant] using h
  · by_cases hv : u.is_email_verified <;>
      by_cases hc : is_verification_code_valid u timeout now candidate <;>
      simp [verify_code, codeInvariant, hv, hc] <;>
      simpa [codeInvariant] using h

/-- Witness for C8 at a concrete input: the fresh user, which satisfies the
invariant, with a consume attempt. -/
theorem C8_code_iff_issuedAt_witness :
    codeInvariant (verify_email newUser 3600 0 "123456").2 = true :=
  (C8_code_iff_issuedAt newUser (fun _ => 0) "123456" 6 0 3600 0 "123456" rfl).2.2.2.2.2.1

/-- C9: The verified flag is monotonic: for every sequence of lifecycle
operations (issue, resend, isValid, consume on either endpoint) applied to a
user, once verified is true no subsequent operation ever sets it back to
false. -/
theorem C9_verified_monotonic (u : UserState) (ops : List LifecycleOp)
    (h : u.is_email_verified = true) :
    (applyOps u ops).is_email_verified = true := by
  induction ops generalizing u with
  | nil => simpa [applyOps] using h
  | cons op rest ih =>
      have hstep : (applyOp u op).is_email_verified = true := by
        cases op <;>
          simp [applyOp, User.generate_verification_code, resend_verification,
            verify_email, verify_code, h]
      have hfold : applyOps u (op :: rest) = applyOps (applyOp u op) rest := rfl
      rw [hfold]
      exact ih (applyOp u op) hstep

/-- Witness for C9 at a concrete input: a verified user run through an issue,
a resend, a validity check and a consume. -/
theorem C9_verified_monotonic_witness :
    (applyOps ⟨true, none, none⟩
      [LifecycleOp.issue (fun _ => 0) 0,
       LifecycleOp.resend (fun _ => 1) 6 1,
       LifecycleOp.checkValid 3600 2 "000000",
       LifecycleOp.consume 3600 3 "000000"]).is_email_verified = true :=
  C9_verified_monotonic ⟨true, none, none⟩
    [LifecycleOp.issue (fun _ => 0) 0,
     LifecycleOp.resend (fun _ => 1) 6 1,
     LifecycleOp.checkValid 3600 2 "000000",
     LifecycleOp.consume 3600 3 "000000"] rfl

/-- C10: consume does not reveal which failure occurred: for any two runs of
consume on unverified users, one failing because the candidate differs from
the stored code and one failing because the (matching) code is expired, the
returned result kind is the same single InvalidOrExpired outcome in both
runs. -/
theorem C10_single_failure_kind (u1 u2 : UserState) (tm1 n1 tm2 n2 : Int) (c1 c2 : String)
    (h1v : u1.is_email_verified = false) (h2v : u2.is_email_verified = false)
    (h1 : u1.verification_code ≠ some c1)
    (_h2c : u2.verification_code = some c2)
    (h2 : ∃ created, u2.verification_code_created = some created ∧ n2 - created > tm2) :
    (verify_email u1 tm1 n1 c1).1 = (verify_email u2 tm2 n2 c2).1 ∧
    (verify_email u1 tm1 n1 c1).1 = ConsumeResult.InvalidOrExpired := by
  have e1 := invalid_of_mismatch_or_expired u1 tm1 n1 c1 (Or.inl h1)
  have e2 := invalid_of_mismatch_or_expired u2 tm2 n2 c2 (Or.inr h2)
  simp [verify_email, h1v, h2v, e1, e2]

/-- Witness for C10 at concrete inputs: a wrong-code run (stored "111111",
candidate "222222") and an expired run (stored and candidate "333333", issued
at 0, probed at 4000 with timeout 3600). -/
theorem C10_single_failure_kind_witness :
    (verify_email ⟨false, some "111111", some 0⟩ 3600 10 "222222").1 =
      ConsumeResult.InvalidOrExpired :=
  (C10_single_failure_kind ⟨false, some "111111", some 0⟩ ⟨false, some "333333", some 0⟩
    3600 10 3600 4000 "222222" "333333" rfl rfl (by decide) rfl
    ⟨0, rfl, by decide⟩).2

end Sefro
